import Mathlib

/-!
Shallow embedding of the Sovereign Knowledge Substrate
(`crates/pagi-core/src/knowledge/store.rs` and its collaborators).

Modelling conventions:
* A sled tree is an association list `List (String × Bytes)`; `open_tree`
  always succeeds in the model, so the sled I/O error channel of
  `Result<_, sled::Error>` collapses and only the error values the store
  itself constructs (`sled::Error::Unsupported`, used for the locked
  Shadow vault) remain, as `StoreError`.
* Sled iterates a tree in ascending key order; the model's `scan_kv`
  sorts the association list by byte-lexicographic key order.
* serde-JSON serialization is self-describing and round-trips; it is
  modelled by the injective sum `Bytes`: one constructor per record
  type, plus `raw` byte strings and `text` for plain UTF-8 payloads.
  `to_bytes` is the constructor, `from_slice` is the partial projection
  (failing exactly on a payload of a different shape).
* Rust `f32`/`f64` scalars are modelled as `ℚ`.
* The fresh random nonce drawn inside a Shadow write and the fresh uuid
  drawn inside `append_chronos_event` are passed as explicit arguments.
* `Vec::sort_by` is a stable sort; it is modelled by the stable
  insertion sort `sortByLe` with the same comparator.
-/

/-- Generic KB record (`KbRecord` in `store.rs`): unique id, content,
free-form metadata (opaque in the model), optional embedding vector,
creation timestamp in ms. -/
structure KbRecord where
  id : String
  content : String
  metadata : String
  embedding : Option (List ℚ)
  timestamp : Int
deriving DecidableEq

/-- Episodic Chronos event (`EventRecord` in `store.rs`). -/
structure EventRecord where
  timestamp_ms : Int
  source_kb : String
  skill_name : Option String
  reflection : String
  outcome : Option String
deriving DecidableEq

/-- Ethos guardrail policy (`PolicyRecord` in `store.rs`). -/
structure PolicyRecord where
  forbidden_actions : List String
  sensitive_keywords : List String
  approval_required : Bool
deriving DecidableEq

/-- Kardia relationship record (`RelationRecord` in `store.rs`). -/
structure RelationRecord where
  user_id : String
  trust_score : ℚ
  communication_style : String
  last_sentiment : String
  last_updated_ms : Int
deriving DecidableEq

/-- Builder `RelationRecord::with_trust_score` from `store.rs`: the only
place the trust score is clamped to `[0, 1]`. -/
def RelationRecord.with_trust_score (r : RelationRecord) (score : ℚ) : RelationRecord :=
  { r with trust_score := min (max score 0) 1 }

/-- Modelled from the spec: `PersonRecord` (Kardia relational map) is not
under `src/`; the spec gives a name plus opaque attributes. -/
structure PersonRecord where
  name : String
  attributes : String
deriving DecidableEq

/-- Modelled from the spec: `EthosPolicy` (philosophical lens) is not
under `src/`; the spec calls it an opaque typed payload. -/
structure EthosPolicy where
  lens : String
deriving DecidableEq

/-- Modelled from the spec: `MentalState` is not under `src/`; the spec
fixes the scalar fields `burnout_risk ∈ [0,1]` and
`grace_multiplier ≥ 1.0` used by the cross-layer derivation. -/
structure MentalState where
  burnout_risk : ℚ
  grace_multiplier : ℚ
deriving DecidableEq

/-- Modelled from the spec: default mental state (absent record). -/
def MentalState.default : MentalState :=
  { burnout_risk := 0, grace_multiplier := 1 }

/-- Modelled from the spec: `MentalState::clamp` clamps every scalar
field to its declared range (`burnout_risk` to `[0,1]`,
`grace_multiplier` to `≥ 1.0`). -/
def MentalState.clamp (m : MentalState) : MentalState :=
  { burnout_risk := min (max m.burnout_risk 0) 1,
    grace_multiplier := max m.grace_multiplier 1 }

/-- Modelled from the spec: `BiometricState` (legacy BioGate) is not
under `src/`; the spec keeps a single legacy `sleep_score`. -/
structure BiometricState where
  sleep_score : Int
deriving DecidableEq

/-- Modelled from the spec: default biometric state (absent record). -/
def BiometricState.default : BiometricState :=
  { sleep_score := 100 }

/-- Modelled from the spec: `poor_sleep()` is `sleep_score < 60`. -/
def BiometricState.poor_sleep (b : BiometricState) : Prop :=
  b.sleep_score < 60

instance (b : BiometricState) : Decidable b.poor_sleep :=
  inferInstanceAs (Decidable (_ < _))

/-- Modelled from the spec: `SomaState` (BioGate v2) is not under
`src/`; fields per §3.2 and the gateway's summary line. -/
structure SomaState where
  sleep_hours : ℚ
  readiness_score : Int
  resting_hr : Int
  hrv : Int
deriving DecidableEq

/-- Modelled from the spec: default soma state (absent record; fully
rested defaults so no BioGate adjustment triggers spuriously). -/
def SomaState.default : SomaState :=
  { sleep_hours := 8, readiness_score := 100, resting_hr := 0, hrv := 0 }

/-- Modelled from the spec: `BURNOUT_INCREMENT = 0.15`. -/
def SomaState.BURNOUT_RISK_INCREMENT : ℚ := 15 / 100

/-- Modelled from the spec: `GRACE_OVERRIDE = 1.6`. -/
def SomaState.GRACE_MULTIPLIER_OVERRIDE : ℚ := 16 / 10

/-- Modelled from the spec: `needs_biogate_adjustment()` is
`readiness_score < 50 OR sleep_hours < 6.0`. -/
def SomaState.needs_biogate_adjustment (s : SomaState) : Prop :=
  s.readiness_score < 50 ∨ s.sleep_hours < 6

instance (s : SomaState) : Decidable s.needs_biogate_adjustment :=
  inferInstanceAs (Decidable (_ ∨ _))

/-- Modelled from the spec: task difficulty tag of a governed task. -/
inductive TaskDifficulty where
  | easy
  | medium
  | hard
deriving DecidableEq

/-- Modelled from the spec: `GovernedTask` (Oikos) is not under `src/`;
the spec fixes task id, base priority, difficulty and the evaluated
`effective_priority`. -/
structure GovernedTask where
  task_id : String
  base_priority : ℚ
  difficulty : TaskDifficulty
  effective_priority : ℚ
deriving DecidableEq

/-- Modelled from the spec: `EmotionalAnchor` (Shadow slot) is not under
`src/`; type label, intensity in `[0,1]`, active flag, opaque content. -/
structure EmotionalAnchor where
  anchor_type : String
  intensity : ℚ
  active : Bool
  content : String
deriving DecidableEq

/-- Byte values as stored in a tree: raw bytes, serialized records
(injective model of serde JSON), UTF-8 text, or the Shadow slot's
sealed frame (the model of `nonce || ciphertext || tag` produced under
a 32-byte master key). -/
inductive Bytes where
  | raw (data : List Nat)
  | kbRec (r : KbRecord)
  | eventRec (e : EventRecord)
  | policyRec (p : PolicyRecord)
  | relationRec (r : RelationRecord)
  | personRec (p : PersonRecord)
  | ethosPol (p : EthosPolicy)
  | mentalRec (m : MentalState)
  | biometricRec (b : BiometricState)
  | somaRec (s : SomaState)
  | taskRec (t : GovernedTask)
  | anchorRec (a : EmotionalAnchor)
  | text (s : String)
  | encrypted (key nonce : List Nat) (payload : Bytes)
deriving DecidableEq

/-- Model of `KbRecord::from_bytes` (serde parse; fails on other shapes). -/
def KbRecord.from_bytes : Bytes → Option KbRecord
  | .kbRec r => some r
  | _ => none

/-- Model of `EventRecord::from_bytes`. -/
def EventRecord.from_bytes : Bytes → Option EventRecord
  | .eventRec e => some e
  | _ => none

/-- Model of `PolicyRecord::from_bytes`. -/
def PolicyRecord.from_bytes : Bytes → Option PolicyRecord
  | .policyRec p => some p
  | _ => none

/-- Model of `RelationRecord::from_bytes`. -/
def RelationRecord.from_bytes : Bytes → Option RelationRecord
  | .relationRec r => some r
  | _ => none

/-- Model of serde parse of a `PersonRecord`. -/
def PersonRecord.from_bytes : Bytes → Option PersonRecord
  | .personRec p => some p
  | _ => none

/-- Model of `EthosPolicy::from_bytes`. -/
def EthosPolicy.from_bytes : Bytes → Option EthosPolicy
  | .ethosPol p => some p
  | _ => none

/-- Model of serde parse of a `MentalState`. -/
def MentalState.from_bytes : Bytes → Option MentalState
  | .mentalRec m => some m
  | _ => none

/-- Model of serde parse of a `BiometricState`. -/
def BiometricState.from_bytes : Bytes → Option BiometricState
  | .biometricRec b => some b
  | _ => none

/-- Model of serde parse of a `SomaState`. -/
def SomaState.from_bytes : Bytes → Option SomaState
  | .somaRec s => some s
  | _ => none

/-- Model of `GovernedTask::from_bytes`. -/
def GovernedTask.from_bytes : Bytes → Option GovernedTask
  | .taskRec t => some t
  | _ => none

/-- Model of serde parse of an `EmotionalAnchor`. -/
def EmotionalAnchor.from_bytes : Bytes → Option EmotionalAnchor
  | .anchorRec a => some a
  | _ => none

/-- Model of `String::from_utf8` on a stored value. -/
def Bytes.asUtf8 : Bytes → Option String
  | .text s => some s
  | _ => none

/-- Error kinds of the Shadow vault (`VaultError` in the missing
`vault.rs`): locked, failed authenticated decryption, serde failure on
the decrypted payload. -/
inductive VaultError where
  | locked
  | cryptoFailure
  | serde
deriving DecidableEq

/-- Modelled from the spec: `SecretVault` (file `vault.rs` is not under
`src/`). Holds the optional 32-byte master key; `None` means locked. -/
structure SecretVault where
  masterKey : Option (List Nat)
deriving DecidableEq

/-- Modelled from the spec: `is_unlocked()` — a master key is present. -/
def SecretVault.is_unlocked (v : SecretVault) : Bool :=
  v.masterKey.isSome

/-- Modelled from the spec: `encrypt_blob` — AES-256-GCM sealing under
the master key with a fresh 12-byte nonce, framed
`nonce || ciphertext || tag`; returns `Locked` without doing any
cryptographic work when no key is available. The AEAD is modelled by
the injective `Bytes.encrypted` frame recording key and nonce. -/
def SecretVault.encrypt_blob (v : SecretVault) (nonce : List Nat) (plaintext : Bytes) :
    Except VaultError Bytes :=
  match v.masterKey with
  | none => .error .locked
  | some k => .ok (.encrypted k nonce plaintext)

/-- Modelled from the spec: `decrypt_blob` — returns `Locked` when no
key is available; authenticated decryption fails (`CryptoFailure`) on a
frame sealed under a different key or on non-ciphertext bytes. -/
def SecretVault.decrypt_blob (v : SecretVault) (ct : Bytes) : Except VaultError Bytes :=
  match v.masterKey with
  | none => .error .locked
  | some k =>
    match ct with
    | .encrypted k2 _ payload => if k2 = k then .ok payload else .error .cryptoFailure
    | _ => .error .cryptoFailure

/-- Modelled from the spec: `decrypt_anchor` — decrypt, then serde-parse
an `EmotionalAnchor` from the plaintext. -/
def SecretVault.decrypt_anchor (v : SecretVault) (ct : Bytes) :
    Except VaultError EmotionalAnchor :=
  match v.decrypt_blob ct with
  | .error e => .error e
  | .ok b =>
    match EmotionalAnchor.from_bytes b with
    | some a => .ok a
    | none => .error .serde

/-- Modelled from the spec: `decrypt_str` — decrypt, then read the
plaintext as a UTF-8 string. -/
def SecretVault.decrypt_str (v : SecretVault) (ct : Bytes) : Except VaultError String :=
  match v.decrypt_blob ct with
  | .error e => .error e
  | .ok b =>
    match b.asUtf8 with
    | some s => .ok s
    | none => .error .serde

/-- Byte-lexicographic comparison on code-point lists; `leList a b` is
`a ≤ b` in the ordering sled uses for its keys. -/
def leList : List Nat → List Nat → Bool
  | [], _ => true
  | _ :: _, [] => false
  | x :: xs, y :: ys => if x < y then true else if y < x then false else leList xs ys

/-- String comparison in key order (`Ord` on Rust strings compares the
underlying bytes; modelled on code points). -/
def strLe (a b : String) : Bool :=
  leList (a.data.map Char.toNat) (b.data.map Char.toNat)

/-- Prefix test on strings (`str::starts_with`), modelled on code-point
lists so that it evaluates inside the kernel. -/
def strStarts (pre s : String) : Bool :=
  (pre.data.map Char.toNat).isPrefixOf (s.data.map Char.toNat)

/-- Stable insertion of `a` in front of the first element it is `le` to. -/
def sortInsert (le : α → α → Bool) (a : α) : List α → List α
  | [] => [a]
  | b :: bs => if le a b then a :: b :: bs else b :: sortInsert le a bs

/-- Stable insertion sort; the model of Rust's stable `Vec::sort_by`
under the total preorder `le x y ↔ cmp(x,y) ≠ Greater`. -/
def sortByLe (le : α → α → Bool) : List α → List α
  | [] => []
  | a :: as => sortInsert le a (sortByLe le as)

/-- Error channel of the store operations: the only error value the
store constructs itself is `sled::Error::Unsupported(msg)`. -/
inductive StoreError where
  | unsupported (msg : String)
deriving DecidableEq

/-- Message of the locked-vault insert failure in `KnowledgeStore::insert`. -/
def shadowLockedMsg : String :=
  "Shadow Vault is locked: provide PAGI_SHADOW_KEY to enable Slot 9"

/-- Human-readable slot labels (`SLOT_LABELS` in `store.rs`). -/
def SLOT_LABELS : List String :=
  ["Pneuma (Vision)", "Oikos (Context)", "Logos (Knowledge)", "Chronos (Temporal)",
   "Techne (Capability)", "Ethos (Guardrails)", "Kardia (Affective)",
   "Soma (Execution)", "Shadow (The Vault)"]

/-- Internal sled tree names (`TREE_NAMES` in `store.rs`). -/
def TREE_NAMES : List String :=
  ["kb1_identity", "kb2_techdocs", "kb3_research", "kb4_memory", "kb5_skills",
   "kb6_security", "kb7_personal", "kb8_buffer", "kb9_shadow"]

/-- `pagi_kb_slot_label`: label for a slot, `"Unknown"` out of range. -/
def pagi_kb_slot_label (slot_id : Nat) : String :=
  if 1 ≤ slot_id ∧ slot_id ≤ 9 then SLOT_LABELS.getD (slot_id - 1) "Unknown" else "Unknown"

/-- The Shadow slot id (`SHADOW_SLOT_ID`). -/
def SHADOW_SLOT_ID : Nat := 9

/-- `KnowledgeStore::tree_name`: index of the sled tree backing a slot;
an out-of-range slot id is clamped to slot 1's tree (index 0). -/
def treeIndex (slot_id : Nat) : Nat :=
  if 1 ≤ slot_id ∧ slot_id ≤ 9 then slot_id - 1 else 0

/-- `KnowledgeStore::tree_name` proper: the tree name string. -/
def tree_name (slot_id : Nat) : String :=
  TREE_NAMES.getD (treeIndex slot_id) "kb1_identity"

/-- The store: nine sled trees (indexed 0–8 by `treeIndex`) plus the
Shadow vault. -/
structure KnowledgeStore where
  trees : Nat → List (String × Bytes)
  vault : SecretVault

/-- Association-list read; the model of `sled::Tree::get`. -/
def treeGet (t : List (String × Bytes)) (key : String) : Option Bytes :=
  (t.find? (fun p => p.1 == key)).map (fun p => p.2)

/-- Association-list upsert; the model of `sled::Tree::insert`. (The
position of the pair is irrelevant: iteration order is imposed by
`scan_kv`'s key sort.) -/
def treePut (t : List (String × Bytes)) (key : String) (v : Bytes) :
    List (String × Bytes) :=
  (key, v) :: t.filter (fun p => p.1 ≠ key)

/-- Association-list delete; the model of `sled::Tree::remove`. -/
def treeDel (t : List (String × Bytes)) (key : String) : List (String × Bytes) :=
  t.filter (fun p => p.1 ≠ key)

/-- Replaces the tree backing `slot_id` (after clamping). -/
def KnowledgeStore.setTree (st : KnowledgeStore) (slot_id : Nat)
    (t : List (String × Bytes)) : KnowledgeStore :=
  { st with trees := fun i => if i = treeIndex slot_id then t else st.trees i }

/-- `KnowledgeStore::get`: raw read from the tree for `slot_id`; Slot 9
returns the raw encrypted bytes. (The sled I/O error channel is empty
in the model.) -/
def KnowledgeStore.get (st : KnowledgeStore) (slot_id : Nat) (key : String) :
    Option Bytes :=
  treeGet (st.trees (treeIndex slot_id)) key

/-- `KnowledgeStore::insert`: upsert returning the previous value. For
Slot 9 the value is first sealed by the vault; a locked vault rejects
the write with `sled::Error::Unsupported` before anything is stored.
`nonce` stands for the fresh random nonce drawn inside `encrypt_blob`. -/
def KnowledgeStore.insert (st : KnowledgeStore) (slot_id : Nat) (key : String)
    (value : Bytes) (nonce : List Nat) :
    Except StoreError (Option Bytes × KnowledgeStore) :=
  if slot_id = SHADOW_SLOT_ID then
    match st.vault.encrypt_blob nonce value with
    | .error _ => .error (.unsupported shadowLockedMsg)
    | .ok sealed =>
      let prev := st.get slot_id key
      .ok (prev, st.setTree slot_id (treePut (st.trees (treeIndex slot_id)) key sealed))
  else
    let prev := st.get slot_id key
    .ok (prev, st.setTree slot_id (treePut (st.trees (treeIndex slot_id)) key value))

/-- `KnowledgeStore::remove`: deletes the key and returns the previous
value. Note the source performs no vault check for Slot 9. -/
def KnowledgeStore.remove (st : KnowledgeStore) (slot_id : Nat) (key : String) :
    Option Bytes × KnowledgeStore :=
  (st.get slot_id key, st.setTree slot_id (treeDel (st.trees (treeIndex slot_id)) key))

/-- `KnowledgeStore::scan_kv`: all key/value pairs of a slot in sled's
iteration order (ascending by key). -/
def KnowledgeStore.scan_kv (st : KnowledgeStore) (slot_id : Nat) :
    List (String × Bytes) :=
  sortByLe (fun p q => strLe p.1 q.1) (st.trees (treeIndex slot_id))

/-- `KnowledgeStore::count`: number of entries in a slot's tree. -/
def KnowledgeStore.count (st : KnowledgeStore) (slot_id : Nat) : Nat :=
  (st.trees (treeIndex slot_id)).length

/-- `KnowledgeStore::is_shadow_unlocked`. -/
def KnowledgeStore.is_shadow_unlocked (st : KnowledgeStore) : Bool :=
  st.vault.is_unlocked

/-- Status of one KB slot (`KbStatus` in `store.rs`). -/
structure KbStatus where
  slot_id : Nat
  name : String
  tree_name : String
  connected : Bool
  entry_count : Nat
  error : Option String
deriving DecidableEq

/-- `KnowledgeStore::get_all_status`: the nine slot statuses; Slot 9
reports `LOCKED (no master key)` when the vault is locked. (Tree opens
always succeed in the model, so `connected` is always true.) -/
def KnowledgeStore.get_all_status (st : KnowledgeStore) : List KbStatus :=
  (List.range 9).map (fun i =>
    { slot_id := i + 1,
      name := SLOT_LABELS.getD i "Unknown",
      tree_name := TREE_NAMES.getD i "kb1_identity",
      connected := true,
      entry_count := (st.trees i).length,
      error :=
        if i + 1 = SHADOW_SLOT_ID ∧ st.vault.is_unlocked = false then
          some "LOCKED (no master key)"
        else none })

/-- `KnowledgeStore::get_record`: point read of a `KbRecord`; a serde
failure is mapped to `None` by `and_then` (source line 677). The
`Except` layer mirrors the `Result` return type; in the model the sled
error channel is empty, so the result is always `ok`. -/
def KnowledgeStore.get_record (st : KnowledgeStore) (slot_id : Nat) (key : String) :
    Except StoreError (Option KbRecord) :=
  .ok ((st.get slot_id key).bind KbRecord.from_bytes)

/-- Key of the active safety policy (`ETHOS_DEFAULT_POLICY_KEY`). -/
def ethosDefaultPolicyKey : String := "policy/default"

/-- Key of the philosophical policy (`ETHOS_POLICY_KEY`, `ethos/current`). -/
def ethosPolicyKey : String := "ethos/current"

/-- Key of the global mental state (`MENTAL_STATE_KEY`). -/
def mentalStateKey : String := "mental_state/current"

/-- Key prefix of the Kardia people map (`KARDIA_PEOPLE_PREFIX`). -/
def kardiaPeopleKeyStart : String := "people/"

/-- Key of the stored biometric state (`BIOMETRIC_STATE_KEY`). -/
def biometricStateKey : String := "biometric/current"

/-- Key of the stored soma state (`SOMA_STATE_KEY`). -/
def somaStateKey : String := "soma/current"

/-- Key prefix of governed tasks (`OIKOS_TASK_PREFIX`). -/
def oikosTaskKeyStart : String := "oikos/tasks/"

/-- Key of the governance summary (`OIKOS_GOVERNANCE_SUMMARY_KEY`). -/
def oikosGovernanceSummaryKey : String := "oikos/governance/summary"

/-- `KnowledgeStore::get_ethos_policy`: point read of the safety policy;
`.ok().flatten().and_then(..)` folds every failure into `None`. -/
def KnowledgeStore.get_ethos_policy (st : KnowledgeStore) : Option PolicyRecord :=
  (st.get 6 ethosDefaultPolicyKey).bind PolicyRecord.from_bytes

/-- `KnowledgeStore::get_ethos_philosophical_policy`. -/
def KnowledgeStore.get_ethos_philosophical_policy (st : KnowledgeStore) :
    Option EthosPolicy :=
  (st.get 6 ethosPolicyKey).bind EthosPolicy.from_bytes

/-- `kardia_relation_key`: `relation/{owner|default}/{target}`. -/
def kardia_relation_key (owner_agent_id target_id : String) : String :=
  "relation/" ++ (if owner_agent_id = "" then "default" else owner_agent_id)
    ++ "/" ++ target_id

/-- `KnowledgeStore::get_kardia_relation`. -/
def KnowledgeStore.get_kardia_relation (st : KnowledgeStore)
    (owner_agent_id target_id : String) : Option RelationRecord :=
  (st.get 7 (kardia_relation_key owner_agent_id target_id)).bind RelationRecord.from_bytes

/-- `KnowledgeStore::set_kardia_relation`: serializes the record as
given (no clamping here) and upserts it under the relation key. Slot 7
is not the Shadow slot, so the write cannot fail in the model. -/
def KnowledgeStore.set_kardia_relation (st : KnowledgeStore)
    (owner_agent_id : String) (record : RelationRecord) : KnowledgeStore :=
  let key := kardia_relation_key owner_agent_id record.user_id
  st.setTree 7 (treePut (st.trees (treeIndex 7)) key (.relationRec record))

/-- `KnowledgeStore::list_people`: scan Slot 7, keep `people/` keys,
parse (skipping failures), sort by name ascending. -/
def KnowledgeStore.list_people (st : KnowledgeStore) : List PersonRecord :=
  sortByLe (fun a b => strLe a.name b.name)
    (((st.scan_kv 7).filter (fun p => strStarts kardiaPeopleKeyStart p.1)).filterMap
      (fun p => PersonRecord.from_bytes p.2))

/-- `KnowledgeStore::get_mental_state`: point read of the global mental
state; both a missing key and a serde failure produce the default. -/
def KnowledgeStore.get_mental_state (st : KnowledgeStore) (_owner_agent_id : String) :
    MentalState :=
  match st.get 7 mentalStateKey with
  | some bytes => (MentalState.from_bytes bytes).getD MentalState.default
  | none => MentalState.default

/-- `KnowledgeStore::get_biometric_state`. -/
def KnowledgeStore.get_biometric_state (st : KnowledgeStore) : BiometricState :=
  match st.get 8 biometricStateKey with
  | some bytes => (BiometricState.from_bytes bytes).getD BiometricState.default
  | none => BiometricState.default

/-- `KnowledgeStore::get_soma_state`. -/
def KnowledgeStore.get_soma_state (st : KnowledgeStore) : SomaState :=
  match st.get 8 somaStateKey with
  | some bytes => (SomaState.from_bytes bytes).getD SomaState.default
  | none => SomaState.default

/-- `KnowledgeStore::get_effective_mental_state`: Kardia baseline merged
with the BioGate. BioGate v2 (SomaState) takes priority: burnout risk
is raised by 0.15 (capped at 1.0) and grace is set to 1.6; otherwise
the legacy BiometricState fallback applies (+0.2 capped, grace 1.5);
finally every scalar is clamped to its declared range. -/
def KnowledgeStore.get_effective_mental_state (st : KnowledgeStore)
    (owner_agent_id : String) : MentalState :=
  let mental := st.get_mental_state owner_agent_id
  let soma := st.get_soma_state
  let merged :=
    if soma.needs_biogate_adjustment then
      { mental with
        burnout_risk := min (mental.burnout_risk + SomaState.BURNOUT_RISK_INCREMENT) 1,
        grace_multiplier := SomaState.GRACE_MULTIPLIER_OVERRIDE }
    else
      let bio := st.get_biometric_state
      if bio.poor_sleep then
        { mental with
          burnout_risk := min (mental.burnout_risk + 2 / 10) 1,
          grace_multiplier := 15 / 10 }
      else mental
  merged.clamp

/-- `KnowledgeStore::append_chronos_event`: key
`event/{agent|default}/{timestamp_ms}_{uuid}` in Slot 4; `uuid` stands
for the fresh `Uuid::new_v4()`. -/
def KnowledgeStore.append_chronos_event (st : KnowledgeStore) (agent_id : String)
    (event : EventRecord) (uuid : String) : KnowledgeStore :=
  let agentPart := if agent_id = "" then "default" else agent_id
  let key := "event/" ++ agentPart ++ "/" ++ toString event.timestamp_ms ++ "_" ++ uuid
  st.setTree 4 (treePut (st.trees (treeIndex 4)) key (.eventRec event))

/-- `KnowledgeStore::get_recent_chronos_events`: scan Slot 4, keep keys
starting with `event/{agent|default}` — note the source's prefix has no
trailing slash — parse (skipping failures), sort by timestamp
descending (stable), truncate to `limit`. -/
def KnowledgeStore.get_recent_chronos_events (st : KnowledgeStore) (agent_id : String)
    (limit : Nat) : List EventRecord :=
  let agentPart := if agent_id = "" then "default" else agent_id
  let pre := "event/" ++ agentPart
  let events := ((st.scan_kv 4).filter (fun p => strStarts pre p.1)).filterMap
    (fun p => EventRecord.from_bytes p.2)
  (sortByLe (fun a b => decide (b.timestamp_ms ≤ a.timestamp_ms)) events).take limit

/-- `KnowledgeStore::get_shadow_anchor`: raw read, then vault decrypt;
a missing key short-circuits to `Ok(None)` before the vault is
consulted; a locked vault on an existing entry yields the error string
`"Shadow Vault is locked"`. -/
def KnowledgeStore.get_shadow_anchor (st : KnowledgeStore) (key : String) :
    Except String (Option EmotionalAnchor) :=
  match st.get SHADOW_SLOT_ID key with
  | none => .ok none
  | some sealed =>
    match st.vault.decrypt_anchor sealed with
    | .ok a => .ok (some a)
    | .error .locked => .error "Shadow Vault is locked"
    | .error _ => .error "decrypt error"

/-- `KnowledgeStore::get_shadow_decrypted`: like `get_shadow_anchor`
but reading the plaintext as UTF-8. -/
def KnowledgeStore.get_shadow_decrypted (st : KnowledgeStore) (key : String) :
    Except String (Option String) :=
  match st.get SHADOW_SLOT_ID key with
  | none => .ok none
  | some sealed =>
    match st.vault.decrypt_str sealed with
    | .ok s => .ok (some s)
    | .error .locked => .error "Shadow Vault is locked"
    | .error _ => .error "decrypt error"

/-- `KnowledgeStore::get_active_shadow_anchors`: empty when the vault is
locked; otherwise decrypts every `anchor/` entry, silently skipping
failures, and keeps active anchors. -/
def KnowledgeStore.get_active_shadow_anchors (st : KnowledgeStore) :
    List (String × EmotionalAnchor) :=
  if st.vault.is_unlocked = false then []
  else
    ((st.scan_kv SHADOW_SLOT_ID).filter (fun p => strStarts "anchor/" p.1)).filterMap
      (fun p =>
        match st.vault.decrypt_anchor p.2 with
        | .ok a => if a.active then some (p.1, a) else none
        | .error _ => none)

/-- `KnowledgeStore::set_governed_task`: upsert under
`oikos/tasks/{task_id}` in Slot 2 (never the Shadow slot, so the write
cannot fail in the model). -/
def KnowledgeStore.set_governed_task (st : KnowledgeStore) (task : GovernedTask) :
    KnowledgeStore :=
  st.setTree 2 (treePut (st.trees (treeIndex 2)) (oikosTaskKeyStart ++ task.task_id)
    (.taskRec task))

/-- `KnowledgeStore::get_governed_task`. -/
def KnowledgeStore.get_governed_task (st : KnowledgeStore) (task_id : String) :
    Option GovernedTask :=
  (st.get 2 (oikosTaskKeyStart ++ task_id)).bind GovernedTask.from_bytes

/-- `KnowledgeStore::list_governed_tasks`: scan Slot 2, keep
`oikos/tasks/` keys, parse (skipping failures), stable-sort by
effective priority descending (the source comparator is
`b.effective_priority.partial_cmp(&a.effective_priority)`). -/
def KnowledgeStore.list_governed_tasks (st : KnowledgeStore) : List GovernedTask :=
  sortByLe (fun a b => decide (b.effective_priority ≤ a.effective_priority))
    (((st.scan_kv 2).filter (fun p => strStarts oikosTaskKeyStart p.1)).filterMap
      (fun p => GovernedTask.from_bytes p.2))

/-- `KnowledgeStore::get_governance_summary`: UTF-8 point read. -/
def KnowledgeStore.get_governance_summary (st : KnowledgeStore) : Option String :=
  (st.get 2 oikosGovernanceSummaryKey).bind Bytes.asUtf8

/-- Modelled from the spec: `TaskGovernor` (not under `src/`) captures
an immutable view of Soma, the effective mental state and the
philosophical policy. -/
structure TaskGovernor where
  soma : SomaState
  mental : MentalState
  ethos : Option EthosPolicy
deriving DecidableEq

/-- Modelled from the spec: the governor's scalar multiplier. The spec
leaves the exact formula open ("present in the source but scattered")
and fixes only monotonicity: higher grace or burnout never raises a
hard task's priority, and an easy task is not reduced by high grace. -/
def TaskGovernor.multiplier (g : TaskGovernor) (d : TaskDifficulty) : ℚ :=
  match d with
  | .easy => 1
  | .medium => 1
  | .hard => 1 / (g.mental.grace_multiplier * (1 + g.mental.burnout_risk))

/-- Modelled from the spec: evaluating one task sets
`effective_priority = base_priority × multiplier`. -/
def TaskGovernor.evaluate (g : TaskGovernor) (t : GovernedTask) : GovernedTask :=
  { t with effective_priority := t.base_priority * g.multiplier t.difficulty }

/-- Comparator of the governed-task ordering contract: effective
priority descending, ties broken by task id ascending. -/
def taskOrd (a b : GovernedTask) : Bool :=
  if a.effective_priority = b.effective_priority then strLe a.task_id b.task_id
  else decide (b.effective_priority ≤ a.effective_priority)

/-- Modelled from the spec: `evaluate_batch` evaluates every task and
returns them sorted by effective priority descending, ties broken by
task id ascending (§4.5 step 5). -/
def TaskGovernor.evaluate_batch (g : TaskGovernor) (tasks : List GovernedTask) :
    List GovernedTask :=
  sortByLe taskOrd (tasks.map g.evaluate)

/-- Modelled from the spec: the textual governance summary (content
unspecified by the spec beyond being text). -/
def TaskGovernor.governance_summary (_g : TaskGovernor) (tasks : List GovernedTask) :
    String :=
  "governed tasks evaluated: " ++ toString tasks.length

/-- `KnowledgeStore::create_task_governor`. -/
def KnowledgeStore.create_task_governor (st : KnowledgeStore) (agent_id : String) :
    TaskGovernor :=
  { soma := st.get_soma_state,
    mental := st.get_effective_mental_state agent_id,
    ethos := st.get_ethos_philosophical_policy }

/-- `KnowledgeStore::evaluate_and_persist_tasks`: evaluate all governed
tasks, write each back, persist the summary, return the evaluated
(sorted) tasks. All writes target Slot 2, so none can fail in the
model. -/
def KnowledgeStore.evaluate_and_persist_tasks (st : KnowledgeStore) (agent_id : String) :
    List GovernedTask × KnowledgeStore :=
  let governor := st.create_task_governor agent_id
  let tasks := st.list_governed_tasks
  let evaluated := governor.evaluate_batch tasks
  let st1 := evaluated.foldl (fun s t => s.set_governed_task t) st
  let summary := governor.governance_summary tasks
  let st2 := st1.setTree 2
    (treePut (st1.trees (treeIndex 2)) oikosGovernanceSummaryKey (.text summary))
  (evaluated, st2)

/-- The aggregated Sovereign snapshot (`SovereignState` in `store.rs`). -/
structure SovereignState where
  kb_statuses : List KbStatus
  soma : SomaState
  bio_gate_active : Bool
  ethos : Option EthosPolicy
  mental : MentalState
  people : List PersonRecord
  governance_summary : Option String
  governed_tasks : List GovernedTask
  shadow_unlocked : Bool
deriving DecidableEq

/-- `KnowledgeStore::get_full_sovereign_state`: aggregates status, Soma,
BioGate flag, Ethos, effective mental state, people, governance summary,
tasks and the vault lock state. The second component is the store the
call leaves behind: the source path contains only read helpers (no
insert/remove), which the embedding mirrors by returning the input
store unchanged. -/
def KnowledgeStore.get_full_sovereign_state (st : KnowledgeStore) (agent_id : String) :
    SovereignState × KnowledgeStore :=
  let soma := st.get_soma_state
  (⟨st.get_all_status, soma, decide soma.needs_biogate_adjustment,
    st.get_ethos_philosophical_policy, st.get_effective_mental_state agent_id,
    st.list_people, st.get_governance_summary, st.list_governed_tasks,
    st.is_shadow_unlocked⟩, st)

/-- Membership through stable insertion. -/
theorem mem_sortInsert (le : α → α → Bool) (a x : α) (l : List α) :
    x ∈ sortInsert le a l ↔ x = a ∨ x ∈ l := by
  induction l with
  | nil => simp [sortInsert]
  | cons b bs ih =>
    simp only [sortInsert]
    split
    · simp
    · simp only [List.mem_cons, ih]
      tauto

/-- Sorting permutes nothing in and nothing out. -/
theorem mem_sortByLe (le : α → α → Bool) (x : α) (l : List α) :
    x ∈ sortByLe le l ↔ x ∈ l := by
  induction l with
  | nil => simp [sortByLe]
  | cons a as ih => simp [sortByLe, mem_sortInsert, ih]

/-- Every list is pairwise related by the trivial relation. -/
theorem pairwise_trivial (l : List α) : l.Pairwise (fun _ _ => True) := by
  induction l with
  | nil => exact List.Pairwise.nil
  | cons a as ih => exact List.Pairwise.cons (fun _ _ => trivial) ih

/-- Stable insertion keeps the list sorted by a total transitive `le`
and, on ties, keeps the inserted element in front of everything it was
`S`-related to (the stability contract of `Vec::sort_by`). -/
theorem pairwise_sortInsert (le : α → α → Bool) (S : α → α → Prop)
    (htot : ∀ x y, le x y = true ∨ le y x = true)
    (htrans : ∀ x y z, le x y = true → le y z = true → le x z = true)
    (a : α) (l : List α) (hS : ∀ x ∈ l, S a x)
    (hl : l.Pairwise (fun x y => le x y = true ∧ (le y x = true → S x y))) :
    (sortInsert le a l).Pairwise (fun x y => le x y = true ∧ (le y x = true → S x y)) := by
  induction l with
  | nil => simp [sortInsert]
  | cons b bs ih =>
    rcases List.pairwise_cons.mp hl with ⟨hb, hbs⟩
    simp only [sortInsert]
    by_cases hab : le a b = true
    · rw [if_pos hab]
      refine List.pairwise_cons.mpr ⟨?_, hl⟩
      intro x hx
      rcases List.mem_cons.mp hx with rfl | hx
      · exact ⟨hab, fun _ => hS x (List.mem_cons_self _ _)⟩
      · exact ⟨htrans a b x hab (hb x hx).1,
          fun _ => hS x (List.mem_cons_of_mem _ hx)⟩
    · rw [if_neg hab]
      refine List.pairwise_cons.mpr ⟨?_, ?_⟩
      · intro x hx
        rcases (mem_sortInsert le a x bs).mp hx with rfl | hx
        · exact ⟨(htot x b).resolve_left hab, fun hc => absurd hc hab⟩
        · exact hb x hx
      · exact ih (fun x hx => hS x (List.mem_cons_of_mem _ hx)) hbs

/-- Stable sort of a list whose original order is pairwise `S`: the
result is sorted by `le`, and wherever `le` does not strictly decide
(a tie), the original `S`-order is preserved. -/
theorem pairwise_sortByLe (le : α → α → Bool) (S : α → α → Prop)
    (htot : ∀ x y, le x y = true ∨ le y x = true)
    (htrans : ∀ x y z, le x y = true → le y z = true → le x z = true)
    (l : List α) (hl : l.Pairwise S) :
    (sortByLe le l).Pairwise (fun x y => le x y = true ∧ (le y x = true → S x y)) := by
  induction l with
  | nil => simp [sortByLe]
  | cons a as ih =>
    rcases List.pairwise_cons.mp hl with ⟨ha, has⟩
    exact pairwise_sortInsert le S htot htrans a _
      (fun x hx => ha x ((mem_sortByLe le x as).mp hx)) (ih has)

/-- Sortedness alone (no stability payload). -/
theorem pairwise_sortByLe_sorted (le : α → α → Bool)
    (htot : ∀ x y, le x y = true ∨ le y x = true)
    (htrans : ∀ x y z, le x y = true → le y z = true → le x z = true)
    (l : List α) : (sortByLe le l).Pairwise (fun x y => le x y = true) :=
  (pairwise_sortByLe le (fun _ _ => True) htot htrans l (pairwise_trivial l)).imp
    (fun h => h.1)

/-- `leList` is total. -/
theorem leList_total : ∀ a b : List Nat, leList a b = true ∨ leList b a = true := by
  intro a
  induction a with
  | nil => intro b; left; rfl
  | cons x xs ih =>
    intro b
    cases b with
    | nil => right; rfl
    | cons y ys =>
      simp only [leList]
      rcases lt_trichotomy x y with h | h | h
      · left; simp [h]
      · subst h
        simpa [lt_irrefl] using ih ys
      · right; simp [h, asymm h]

/-- `leList` is transitive. -/
theorem leList_trans : ∀ a b c : List Nat,
    leList a b = true → leList b c = true → leList a c = true := by
  intro a
  induction a with
  | nil => intro b c _ _; rfl
  | cons x xs ih =>
    intro b c hab hbc
    cases b with
    | nil => simp [leList] at hab
    | cons y ys =>
      cases c with
      | nil => simp [leList] at hbc
      | cons z zs =>
        simp only [leList] at hab hbc ⊢
        by_cases hxy : x < y
        · by_cases hyz : y < z
          · simp [lt_trans hxy hyz]
          · by_cases hzy : z < y
            · simp [hyz, hzy] at hbc
            · have hyzeq : y = z := le_antisymm (not_lt.mp hzy) (not_lt.mp hyz)
              subst hyzeq
              simp [hxy]
        · by_cases hyx : y < x
          · simp [hxy, hyx] at hab
          · have hxyeq : x = y := le_antisymm (not_lt.mp hyx) (not_lt.mp hxy)
            subst hxyeq
            by_cases hxz : x < z
            · simp [hxz]
            · by_cases hzx : z < x
              · simp [hxz, hzx] at hbc
              · have hxzeq : x = z := le_antisymm (not_lt.mp hzx) (not_lt.mp hxz)
                subst hxzeq
                simp only [lt_irrefl, if_false] at hab hbc ⊢
                exact ih ys zs hab hbc

/-- A common prefix cancels in `leList`. -/
theorem leList_append_cancel (p a b : List Nat) :
    leList (p ++ a) (p ++ b) = leList a b := by
  induction p with
  | nil => rfl
  | cons x ps ih => simp [leList, lt_irrefl, ih]

/-- `strLe` is total. -/
theorem strLe_total (a b : String) : strLe a b = true ∨ strLe b a = true :=
  leList_total _ _

/-- `strLe` is transitive. -/
theorem strLe_trans (a b c : String) :
    strLe a b = true → strLe b c = true → strLe a c = true :=
  leList_trans _ _ _

/-- A common prefix cancels in `strLe`. -/
theorem strLe_append_cancel (p a b : String) :
    strLe (p ++ a) (p ++ b) = strLe a b := by
  simp only [strLe, String.data_append, List.map_append]
  exact leList_append_cancel _ _ _

/-- `taskOrd` is total. -/
theorem taskOrd_total (a b : GovernedTask) :
    taskOrd a b = true ∨ taskOrd b a = true := by
  unfold taskOrd
  by_cases h : a.effective_priority = b.effective_priority
  · simp only [h, if_pos rfl, if_pos h.symm]
    rw [h] at *
    exact strLe_total _ _
  · simp only [if_neg h, if_neg (Ne.symm h), decide_eq_true_eq]
    exact le_total _ _

/-- `taskOrd` is transitive. -/
theorem taskOrd_trans (a b c : GovernedTask) :
    taskOrd a b = true → taskOrd b c = true → taskOrd a c = true := by
  unfold taskOrd
  by_cases hab : a.effective_priority = b.effective_priority
  · by_cases hbc : b.effective_priority = c.effective_priority
    · simp only [hab, hbc, if_pos, hab.trans hbc]
      intro h1 h2
      exact strLe_trans _ _ _ h1 h2
    · simp only [if_pos hab, if_neg hbc, decide_eq_true_eq]
      intro _ h2
      have hac : a.effective_priority ≠ c.effective_priority := fun h => hbc (hab.symm.trans h)
      simp only [if_neg hac, decide_eq_true_eq]
      exact hab ▸ h2
  · by_cases hbc : b.effective_priority = c.effective_priority
    · simp only [if_neg hab, if_pos hbc, decide_eq_true_eq]
      intro h1 _
      have hac : a.effective_priority ≠ c.effective_priority := fun h => hab (h.trans hbc.symm)
      simp only [if_neg hac, decide_eq_true_eq]
      exact hbc ▸ h1
    · simp only [if_neg hab, if_neg hbc, decide_eq_true_eq]
      intro h1 h2
      have hba : b.effective_priority < a.effective_priority := lt_of_le_of_ne h1 (fun h => hab h.symm)
      have hcb : c.effective_priority < b.effective_priority := lt_of_le_of_ne h2 (fun h => hbc h.symm)
      have hac : a.effective_priority ≠ c.effective_priority :=
        fun h => absurd (h ▸ hcb.trans hba) (lt_irrefl _)
      simp only [if_neg hac, decide_eq_true_eq]
      exact (hcb.trans hba).le

/-- Reading back the key just written (`sled::Tree` upsert semantics). -/
theorem treeGet_treePut_self (t : List (String × Bytes)) (key : String) (v : Bytes) :
    treeGet (treePut t key v) key = some v := by
  simp [treeGet, treePut, List.find?]

/-- Reading a key just deleted yields nothing. -/
theorem treeGet_treeDel_self (t : List (String × Bytes)) (key : String) :
    treeGet (treeDel t key) key = none := by
  simp only [treeGet, treeDel]
  rw [List.find?_eq_none.mpr]
  · rfl
  · intro p hp
    have := (List.mem_filter.mp hp).2
    simpa [beq_iff_eq] using this

/-- Reading through `setTree` on the same slot. -/
theorem get_setTree_self (st : KnowledgeStore) (slot : Nat) (t : List (String × Bytes))
    (key : String) : (st.setTree slot t).get slot key = treeGet t key := by
  simp [KnowledgeStore.setTree, KnowledgeStore.get]

/-- Empty store with a locked vault (no `PAGI_SHADOW_KEY`). -/
def storeLocked : KnowledgeStore :=
  { trees := fun _ => [], vault := ⟨none⟩ }

/-- Empty store with an unlocked vault. -/
def storeWithKey : KnowledgeStore :=
  { trees := fun _ => [], vault := ⟨some [7]⟩ }

/-- C10: `get_full_sovereign_state` is a pure read — it writes to no
partition (the store it leaves behind is the input store), and two
invocations with the same `agent_id` and no intervening writes return
equal snapshots. -/
theorem C10_snapshot_pure (st : KnowledgeStore) (agent_id : String) :
    (st.get_full_sovereign_state agent_id).2 = st ∧
    ((st.get_full_sovereign_state agent_id).2.get_full_sovereign_state agent_id).1 =
      (st.get_full_sovereign_state agent_id).1 :=
  ⟨rfl, rfl⟩

/-- Store produced by an out-of-range insert. -/
def c5After : KnowledgeStore :=
  storeLocked.setTree 10 (treePut [] "k" (.raw [2]))

/-- C5 counterexample: `insert(10, "k", [2])` is *not* rejected — it
returns `Ok` and the value lands in partition 1's tree (the out-of-range
slot is clamped by `tree_name`), so the claim as stated is false. -/
theorem C5_counterexample :
    storeLocked.insert 10 "k" (.raw [2]) [] = .ok (none, c5After) ∧
    c5After.get 1 "k" = some (.raw [2]) ∧
    c5After.count 1 = 1 :=
  ⟨rfl, rfl, rfl⟩

/-- C5 amended: a slot id outside 1..9 is not rejected; `get`, `insert`
and `remove` clamp it to slot 1's tree and behave exactly like the same
operation on slot 1. -/
theorem C5_out_of_range_clamped (st : KnowledgeStore) (slot : Nat) (key : String)
    (value : Bytes) (nonce : List Nat) (h : ¬ (1 ≤ slot ∧ slot ≤ 9)) :
    st.get slot key = st.get 1 key ∧
    st.insert slot key value nonce = st.insert 1 key value nonce ∧
    st.remove slot key = st.remove 1 key := by
  have h9 : slot ≠ 9 := by rintro rfl; exact h (by decide)
  have hidx : treeIndex slot = treeIndex 1 := by simp [treeIndex, h]
  refine ⟨?_, ?_, ?_⟩
  · simp [KnowledgeStore.get, hidx]
  · simp [KnowledgeStore.insert, KnowledgeStore.setTree, KnowledgeStore.get, hidx, h9,
      SHADOW_SLOT_ID]
  · simp [KnowledgeStore.remove, KnowledgeStore.setTree, KnowledgeStore.get, hidx]

/-- Closed instance of `C5_out_of_range_clamped` at slot 10. -/
theorem C5_out_of_range_clamped_witness :
    (¬ ((1:Nat) ≤ 10 ∧ 10 ≤ 9)) ∧
    (storeLocked.get 10 "k" = storeLocked.get 1 "k" ∧
     storeLocked.insert 10 "k" (.raw [2]) [] = storeLocked.insert 1 "k" (.raw [2]) [] ∧
     storeLocked.remove 10 "k" = storeLocked.remove 1 "k") :=
  ⟨by decide, C5_out_of_range_clamped storeLocked 10 "k" (.raw [2]) [] (by decide)⟩

/-- Relation record whose trust score was assigned directly (bypassing
the clamping builder). -/
def c7rec : RelationRecord :=
  { user_id := "u1", trust_score := 3/2, communication_style := "",
    last_sentiment := "", last_updated_ms := 0 }

/-- C7 counterexample: `set_kardia_relation` stores the record verbatim,
so a directly-assigned `trust_score = 1.5` is stored and read back
outside `[0,1]`, falsifying the claim. -/
theorem C7_counterexample :
    (storeLocked.set_kardia_relation "owner" c7rec).get_kardia_relation "owner" "u1" =
      some c7rec ∧
    ¬ (c7rec.trust_score ≤ 1) := by
  refine ⟨rfl, ?_⟩
  norm_num [c7rec]

/-- C7 amended: `set_kardia_relation` stores the given record verbatim
under `relation/{owner|default}/{user_id}`; the `[0,1]` bound holds for
trust scores that went through the `with_trust_score` builder, which is
the only clamping site. -/
theorem C7_set_relation_verbatim (st : KnowledgeStore) (owner : String)
    (record : RelationRecord) (s : ℚ) :
    (st.set_kardia_relation owner record).get_kardia_relation owner record.user_id =
      some record ∧
    0 ≤ (record.with_trust_score s).trust_score ∧
    (record.with_trust_score s).trust_score ≤ 1 := by
  refine ⟨?_, ?_, ?_⟩
  · unfold KnowledgeStore.set_kardia_relation KnowledgeStore.get_kardia_relation
    rw [get_setTree_self, treeGet_treePut_self]
    rfl
  · simp only [RelationRecord.with_trust_score, le_min_iff, le_max_iff]
    exact ⟨Or.inr le_rfl, by norm_num⟩
  · simp only [RelationRecord.with_trust_score]
    exact min_le_right _ _

/-- Locked store holding one sealed Shadow entry. -/
def c2Store : KnowledgeStore :=
  { trees := fun i => if i = 8 then [("anchor/a", .encrypted [1] [2] (.raw [3]))] else [],
    vault := ⟨none⟩ }

/-- C2 counterexample: with the vault locked, `remove(9, key)` does
*not* fail with a locked error — it succeeds, returns the previous
sealed value, and actually deletes the entry. -/
theorem C2_counterexample :
    c2Store.is_shadow_unlocked = false ∧
    c2Store.get 9 "anchor/a" = some (.encrypted [1] [2] (.raw [3])) ∧
    (c2Store.remove 9 "anchor/a").1 = some (.encrypted [1] [2] (.raw [3])) ∧
    (c2Store.remove 9 "anchor/a").2.get 9 "anchor/a" = none :=
  ⟨rfl, rfl, rfl, rfl⟩

/-- C2 amended: with the vault locked, `insert(9,·,·)` fails explicitly
with the locked error (so the stored value is untouched), the typed
reads return the locked error whenever an entry exists under the key,
but `remove(9,·)` is not vault-guarded: it succeeds and deletes the raw
ciphertext. -/
theorem C2_locked_partition9 (st : KnowledgeStore) (key : String) (value : Bytes)
    (nonce : List Nat) (hlock : st.vault.masterKey = none) :
    st.insert 9 key value nonce = .error (.unsupported shadowLockedMsg) ∧
    ((st.get 9 key).isSome = true →
      st.get_shadow_anchor key = .error "Shadow Vault is locked" ∧
      st.get_shadow_decrypted key = .error "Shadow Vault is locked") ∧
    st.remove 9 key = (st.get 9 key, st.setTree 9 (treeDel (st.trees 8) key)) := by
  refine ⟨?_, ?_, rfl⟩
  · simp [KnowledgeStore.insert, SecretVault.encrypt_blob, hlock, SHADOW_SLOT_ID]
  · intro hsome
    obtain ⟨sealed, hs⟩ := Option.isSome_iff_exists.mp hsome
    unfold KnowledgeStore.get_shadow_anchor KnowledgeStore.get_shadow_decrypted
    rw [show st.get SHADOW_SLOT_ID key = some sealed from hs]
    simp [SecretVault.decrypt_anchor, SecretVault.decrypt_str, SecretVault.decrypt_blob,
      hlock]

/-- Closed instance of `C2_locked_partition9` on a locked store holding
one sealed entry. -/
theorem C2_locked_partition9_witness :
    c2Store.vault.masterKey = none ∧
    (c2Store.insert 9 "anchor/a" (.raw [0]) [] = .error (.unsupported shadowLockedMsg) ∧
     ((c2Store.get 9 "anchor/a").isSome = true →
       c2Store.get_shadow_anchor "anchor/a" = .error "Shadow Vault is locked" ∧
       c2Store.get_shadow_decrypted "anchor/a" = .error "Shadow Vault is locked") ∧
     c2Store.remove 9 "anchor/a" =
       (c2Store.get 9 "anchor/a", c2Store.setTree 9 (treeDel (c2Store.trees 8) "anchor/a"))) :=
  ⟨rfl, C2_locked_partition9 c2Store "anchor/a" (.raw [0]) [] rfl⟩

/-- C3 counterexample: with the vault locked, a typed read of a key
with no stored entry returns `Ok(None)`, not the locked error, so the
claim's "whether or not an entry exists" universal is false. -/
theorem C3_counterexample :
    storeLocked.is_shadow_unlocked = false ∧
    storeLocked.get_shadow_anchor "anchor/missing" = .ok none ∧
    storeLocked.get_shadow_decrypted "anchor/missing" = .ok none :=
  ⟨rfl, rfl, rfl⟩

/-- C3 amended: with the vault locked, `get_shadow_anchor` and
`get_shadow_decrypted` return the locked error exactly for keys that
have a stored entry; for a missing key they return `Ok(None)`. -/
theorem C3_locked_reads (st : KnowledgeStore) (key : String)
    (hlock : st.vault.masterKey = none) :
    (st.get 9 key = none →
      st.get_shadow_anchor key = .ok none ∧ st.get_shadow_decrypted key = .ok none) ∧
    ((st.get 9 key).isSome = true →
      st.get_shadow_anchor key = .error "Shadow Vault is locked" ∧
      st.get_shadow_decrypted key = .error "Shadow Vault is locked") := by
  constructor
  · intro hnone
    unfold KnowledgeStore.get_shadow_anchor KnowledgeStore.get_shadow_decrypted
    rw [show st.get SHADOW_SLOT_ID key = none from hnone]
    exact ⟨rfl, rfl⟩
  · intro hsome
    obtain ⟨sealed, hs⟩ := Option.isSome_iff_exists.mp hsome
    unfold KnowledgeStore.get_shadow_anchor KnowledgeStore.get_shadow_decrypted
    rw [show st.get SHADOW_SLOT_ID key = some sealed from hs]
    simp [SecretVault.decrypt_anchor, SecretVault.decrypt_str, SecretVault.decrypt_blob,
      hlock]

/-- Closed instance of `C3_locked_reads` on a locked store with one
stored entry. -/
theorem C3_locked_reads_witness :
    c2Store.vault.masterKey = none ∧
    ((c2Store.get 9 "anchor/a" = none →
       c2Store.get_shadow_anchor "anchor/a" = .ok none ∧
       c2Store.get_shadow_decrypted "anchor/a" = .ok none) ∧
     ((c2Store.get 9 "anchor/a").isSome = true →
       c2Store.get_shadow_anchor "anchor/a" = .error "Shadow Vault is locked" ∧
       c2Store.get_shadow_decrypted "anchor/a" = .error "Shadow Vault is locked")) :=
  ⟨rfl, C3_locked_reads c2Store "anchor/a" rfl⟩

/-- Store holding undeserializable raw bytes at three typed point-read
locations. -/
def c9Store : KnowledgeStore :=
  { trees := fun i =>
      if i = 0 then [("k", .raw [1])]
      else if i = 5 then [(ethosDefaultPolicyKey, .raw [2])]
      else if i = 6 then [(mentalStateKey, .raw [3])]
      else [],
    vault := ⟨none⟩ }

/-- C9 counterexample: stored bytes exist but fail to deserialize, and
the point-read helpers return `Ok(None)` / `None` / the default mental
state instead of surfacing the serialization failure. -/
theorem C9_counterexample :
    c9Store.get 1 "k" = some (.raw [1]) ∧
    c9Store.get_record 1 "k" = .ok none ∧
    c9Store.get 6 ethosDefaultPolicyKey = some (.raw [2]) ∧
    c9Store.get_ethos_policy = none ∧
    c9Store.get 7 mentalStateKey = some (.raw [3]) ∧
    c9Store.get_mental_state "agent" = MentalState.default :=
  ⟨rfl, rfl, rfl, rfl, rfl, rfl⟩

/-- C9 amended: when stored bytes fail to deserialize, the point-read
helpers silently absorb the failure — `get_record` returns `Ok(None)`,
`get_ethos_policy` returns `None`, `get_mental_state` returns the
default state; none of them surfaces an error. -/
theorem C9_point_reads_silent (st : KnowledgeStore) (slot : Nat) (key agent : String)
    (b1 b2 b3 : Bytes)
    (h1 : st.get slot key = some b1) (h2 : KbRecord.from_bytes b1 = none)
    (h3 : st.get 6 ethosDefaultPolicyKey = some b2)
    (h4 : PolicyRecord.from_bytes b2 = none)
    (h5 : st.get 7 mentalStateKey = some b3)
    (h6 : MentalState.from_bytes b3 = none) :
    st.get_record slot key = .ok none ∧
    st.get_ethos_policy = none ∧
    st.get_mental_state agent = MentalState.default := by
  refine ⟨?_, ?_, ?_⟩
  · simp [KnowledgeStore.get_record, h1, h2]
  · simp [KnowledgeStore.get_ethos_policy, h3, h4]
  · simp [KnowledgeStore.get_mental_state, h5, h6]

/-- Closed instance of `C9_point_reads_silent` on `c9Store`. -/
theorem C9_point_reads_silent_witness :
    (c9Store.get 1 "k" = some (.raw [1]) ∧
     KbRecord.from_bytes (.raw [1]) = none ∧
     c9Store.get 6 ethosDefaultPolicyKey = some (.raw [2]) ∧
     PolicyRecord.from_bytes (.raw [2]) = none ∧
     c9Store.get 7 mentalStateKey = some (.raw [3]) ∧
     MentalState.from_bytes (.raw [3]) = none) ∧
    (c9Store.get_record 1 "k" = .ok none ∧
     c9Store.get_ethos_policy = none ∧
     c9Store.get_mental_state "agent" = MentalState.default) :=
  ⟨⟨rfl, rfl, rfl, rfl, rfl, rfl⟩,
   C9_point_reads_silent c9Store 1 "k" "agent" (.raw [1]) (.raw [2]) (.raw [3])
     rfl rfl rfl rfl rfl rfl⟩

/-- C1: for every slot in 1..9, key and byte value, a successful
`insert(slot,key,value)` followed by `get(slot,key)` returns
`Some(value)` for slots 1–8; for partition 9 `get` returns the sealed
ciphertext, which the vault decrypts back to `value`. -/
theorem C1_insert_get (st : KnowledgeStore) (slot : Nat) (key : String)
    (value : Bytes) (nonce : List Nat) (prev : Option Bytes) (st2 : KnowledgeStore)
    (hslot : 1 ≤ slot ∧ slot ≤ 9)
    (hins : st.insert slot key value nonce = .ok (prev, st2)) :
    (slot ≠ 9 → st2.get slot key = some value) ∧
    (slot = 9 →
      Option.map st2.vault.decrypt_blob (st2.get slot key) = some (.ok value)) := by
  constructor
  · intro h9
    unfold KnowledgeStore.insert at hins
    rw [if_neg (by simpa [SHADOW_SLOT_ID] using h9)] at hins
    simp only [Except.ok.injEq, Prod.mk.injEq] at hins
    rw [← hins.2, get_setTree_self, treeGet_treePut_self]
  · intro h9
    subst h9
    unfold KnowledgeStore.insert at hins
    simp only [SHADOW_SLOT_ID, if_true] at hins
    cases hvk : st.vault.masterKey with
    | none => simp [SecretVault.encrypt_blob, hvk] at hins
    | some k =>
      simp only [SecretVault.encrypt_blob, hvk, Except.ok.injEq, Prod.mk.injEq] at hins
      rw [← hins.2, get_setTree_self, treeGet_treePut_self]
      simp [KnowledgeStore.setTree, SecretVault.decrypt_blob, hvk]

/-- Store after a successful Shadow insert. -/
def c1After : KnowledgeStore :=
  storeWithKey.setTree 9 (treePut [] "anchor/x" (.encrypted [7] [5] (.raw [1])))

/-- Closed instance of `C1_insert_get` at slot 9. -/
theorem C1_insert_get_witness :
    ((1:Nat) ≤ 9 ∧ 9 ≤ 9) ∧
    storeWithKey.insert 9 "anchor/x" (.raw [1]) [5] = .ok (none, c1After) ∧
    (((9:Nat) ≠ 9 → c1After.get 9 "anchor/x" = some (.raw [1])) ∧
     ((9:Nat) = 9 →
       Option.map c1After.vault.decrypt_blob (c1After.get 9 "anchor/x") =
         some (.ok (.raw [1])))) :=
  ⟨by decide, rfl,
   C1_insert_get storeWithKey 9 "anchor/x" (.raw [1]) [5] none c1After (by decide) rfl⟩

/-- Store with a stored mental state at burnout 0.9 and a stored soma
state with readiness 40 (BioGate triggers). -/
def c4Store : KnowledgeStore :=
  { trees := fun i =>
      if i = 6 then [(mentalStateKey, .mentalRec ⟨9/10, 1⟩)]
      else if i = 7 then [(somaStateKey, .somaRec ⟨8, 40, 0, 0⟩)]
      else [],
    vault := ⟨none⟩ }

/-- C4 counterexample: with stored burnout 0.9 and readiness 40 < 50,
the effective burnout risk is capped at 1.0, which is strictly below
`base + 0.15 = 1.05`, so the claimed lower bound fails (the grace part
does hold). -/
theorem C4_counterexample :
    (c4Store.get_soma_state).readiness_score < 50 ∧
    c4Store.get_mental_state "agent" = ⟨9/10, 1⟩ ∧
    (c4Store.get_effective_mental_state "agent").grace_multiplier = 16/10 ∧
    (c4Store.get_effective_mental_state "agent").burnout_risk = 1 ∧
    ¬ ((9:ℚ)/10 + 15/100 ≤ (c4Store.get_effective_mental_state "agent").burnout_risk) := by
  refine ⟨by decide, rfl, ?_, ?_, ?_⟩
  · norm_num [KnowledgeStore.get_effective_mental_state, KnowledgeStore.get_mental_state,
      KnowledgeStore.get_soma_state, c4Store, KnowledgeStore.get, treeGet,
      SomaState.needs_biogate_adjustment, SomaState.GRACE_MULTIPLIER_OVERRIDE,
      SomaState.BURNOUT_RISK_INCREMENT, MentalState.clamp, MentalState.from_bytes,
      SomaState.from_bytes, mentalStateKey, somaStateKey, treeIndex]
  · norm_num [KnowledgeStore.get_effective_mental_state, KnowledgeStore.get_mental_state,
      KnowledgeStore.get_soma_state, c4Store, KnowledgeStore.get, treeGet,
      SomaState.needs_biogate_adjustment, SomaState.GRACE_MULTIPLIER_OVERRIDE,
      SomaState.BURNOUT_RISK_INCREMENT, MentalState.clamp, MentalState.from_bytes,
      SomaState.from_bytes, mentalStateKey, somaStateKey, treeIndex]
  · norm_num [KnowledgeStore.get_effective_mental_state, KnowledgeStore.get_mental_state,
      KnowledgeStore.get_soma_state, c4Store, KnowledgeStore.get, treeGet,
      SomaState.needs_biogate_adjustment, SomaState.GRACE_MULTIPLIER_OVERRIDE,
      SomaState.BURNOUT_RISK_INCREMENT, MentalState.clamp, MentalState.from_bytes,
      SomaState.from_bytes, mentalStateKey, somaStateKey, treeIndex]

/-- C4 amended: whenever the stored soma state satisfies
`readiness_score < 50 ∨ sleep_hours < 6.0` and the stored base burnout
risk is non-negative, the effective mental state has
`grace_multiplier = 1.6` and `burnout_risk = min (base + 0.15) 1`
(hence `≥ base + 0.15` exactly when `base ≤ 0.85`). -/
theorem C4_biogate_adjustment (st : KnowledgeStore) (agent : String)
    (base : MentalState) (soma : SomaState)
    (hbase : st.get 7 mentalStateKey = some (.mentalRec base))
    (hsoma : st.get 8 somaStateKey = some (.somaRec soma))
    (hadj : soma.readiness_score < 50 ∨ soma.sleep_hours < 6)
    (hb0 : 0 ≤ base.burnout_risk) :
    (st.get_effective_mental_state agent).grace_multiplier = 16/10 ∧
    (st.get_effective_mental_state agent).burnout_risk =
      min (base.burnout_risk + 15/100) 1 := by
  have hm : st.get_mental_state agent = base := by
    simp [KnowledgeStore.get_mental_state, hbase, MentalState.from_bytes]
  have hsm : st.get_soma_state = soma := by
    simp [KnowledgeStore.get_soma_state, hsoma, SomaState.from_bytes]
  unfold KnowledgeStore.get_effective_mental_state
  simp only [hm, hsm]
  rw [if_pos (show soma.needs_biogate_adjustment from hadj)]
  have hnn : (0:ℚ) ≤ min (base.burnout_risk + 15/100) 1 := by
    have : (0:ℚ) ≤ base.burnout_risk + 15/100 := by linarith
    exact le_min this (by norm_num)
  constructor
  · simp [MentalState.clamp, SomaState.GRACE_MULTIPLIER_OVERRIDE]
    norm_num
  · simp only [MentalState.clamp, SomaState.BURNOUT_RISK_INCREMENT]
    rw [max_eq_left hnn, min_eq_left (min_le_right _ _)]

/-- Closed instance of `C4_biogate_adjustment` on `c4Store`. -/
theorem C4_biogate_adjustment_witness :
    (c4Store.get 7 mentalStateKey = some (.mentalRec ⟨9/10, 1⟩) ∧
     c4Store.get 8 somaStateKey = some (.somaRec ⟨8, 40, 0, 0⟩) ∧
     ((8:ℚ) < 6 ∨ (40:Int) < 50) ∧
     (0:ℚ) ≤ 9/10) ∧
    ((c4Store.get_effective_mental_state "agent").grace_multiplier = 16/10 ∧
     (c4Store.get_effective_mental_state "agent").burnout_risk =
       min ((9:ℚ)/10 + 15/100) 1) :=
  ⟨⟨rfl, rfl, Or.inr (by decide), by norm_num⟩,
   C4_biogate_adjustment c4Store "agent" ⟨9/10, 1⟩ ⟨8, 40, 0, 0⟩ rfl rfl
     (Or.inl (by decide)) (by norm_num)⟩

/-- Chronos store holding one event for agent `A` and one for agent
`AB`. -/
def c6Store : KnowledgeStore :=
  { trees := fun i =>
      if i = 3 then
        [("event/A/100_u1", .eventRec ⟨100, "Soma", none, "recallA", none⟩),
         ("event/AB/200_u2", .eventRec ⟨200, "Soma", none, "recallAB", none⟩)]
      else [],
    vault := ⟨none⟩ }

/-- C6: evaluation at the failing input. The source filters Slot 4 keys
by the prefix `event/{agent}` *without* the trailing slash, so
`get_recent_chronos_events("A", ·)` also returns agent `AB`'s event,
whose key does not start with `event/A/` — contradicting the claim (and
the per-agent memory-stream contract the source documents). -/
theorem C6_prefix_bug_eval :
    c6Store.get_recent_chronos_events "A" 10 =
      [⟨200, "Soma", none, "recallAB", none⟩, ⟨100, "Soma", none, "recallA", none⟩] ∧
    strStarts "event/A/" "event/AB/200_u2" = false ∧
    strStarts "event/A" "event/AB/200_u2" = true := by
  refine ⟨by decide, by decide, by decide⟩

/-- A stored Oikos entry is canonically keyed when its bytes parse as a
governed task stored under `oikos/tasks/{task_id}` (exactly what
`set_governed_task` writes). -/
def entryCanonical (p : String × Bytes) : Bool :=
  match GovernedTask.from_bytes p.2 with
  | some t => p.1 == oikosTaskKeyStart ++ t.task_id
  | none => false

/-- A store whose Slot 2 task entries are all canonically keyed. -/
def oikosCanonical (st : KnowledgeStore) : Prop :=
  ∀ p ∈ st.trees (treeIndex 2), strStarts oikosTaskKeyStart p.1 = true →
    entryCanonical p = true

/-- The governed-task ordering contract: effective priority descending,
ties broken by task id ascending. -/
def taskSortedRel (a b : GovernedTask) : Prop :=
  b.effective_priority < a.effective_priority ∨
    (a.effective_priority = b.effective_priority ∧ strLe a.task_id b.task_id = true)

instance : DecidableRel taskSortedRel := fun a b => by
  unfold taskSortedRel
  infer_instance

/-- On a canonically keyed store, the pre-sort task list inherits
id-ascending order from sled's key-ordered scan. -/
theorem tasks_prefilter_pairwise_ids (st : KnowledgeStore) (hc : oikosCanonical st) :
    (((st.scan_kv 2).filter (fun p => strStarts oikosTaskKeyStart p.1)).filterMap
      (fun p => GovernedTask.from_bytes p.2)).Pairwise
      (fun a b => strLe a.task_id b.task_id = true) := by
  have h1 : (st.scan_kv 2).Pairwise (fun p q => strLe p.1 q.1 = true) :=
    pairwise_sortByLe_sorted (fun p q : String × Bytes => strLe p.1 q.1)
      (fun x y => strLe_total x.1 y.1)
      (fun x y z => strLe_trans x.1 y.1 z.1) (st.trees (treeIndex 2))
  have h2 := h1.filter (fun p => strStarts oikosTaskKeyStart p.1)
  have h3 := List.Pairwise.and_mem.mp h2
  refine List.Pairwise.filterMap _ ?_ h3
  intro p q hpq x hx y hy
  obtain ⟨hpmem, hqmem, hle⟩ := hpq
  have hfx : GovernedTask.from_bytes p.2 = some x := hx
  have hfy : GovernedTask.from_bytes q.2 = some y := hy
  have hpc : entryCanonical p = true := by
    have hmem := List.mem_filter.mp hpmem
    exact hc p ((mem_sortByLe _ _ _).mp hmem.1) hmem.2
  have hqc : entryCanonical q = true := by
    have hmem := List.mem_filter.mp hqmem
    exact hc q ((mem_sortByLe _ _ _).mp hmem.1) hmem.2
  unfold entryCanonical at hpc hqc
  rw [hfx] at hpc
  rw [hfy] at hqc
  have hpk : p.1 = oikosTaskKeyStart ++ x.task_id := by simpa using hpc
  have hqk : q.1 = oikosTaskKeyStart ++ y.task_id := by simpa using hqc
  rw [hpk, hqk, strLe_append_cancel] at hle
  exact hle

/-- The first component of `evaluate_and_persist_tasks` is the
governor's evaluated batch. -/
theorem evaluate_and_persist_fst (st : KnowledgeStore) (agent_id : String) :
    (st.evaluate_and_persist_tasks agent_id).1 =
      (st.create_task_governor agent_id).evaluate_batch st.list_governed_tasks := rfl

/-- C8: on a canonically keyed store, `list_governed_tasks` is sorted by
effective priority descending with ties broken by task id ascending
(sled scan order plus the stable sort), and the list returned by
`evaluate_and_persist_tasks` satisfies the same ordering contract. -/
theorem C8_tasks_sorted (st : KnowledgeStore) (agent_id : String)
    (hc : oikosCanonical st) :
    (st.list_governed_tasks).Pairwise taskSortedRel ∧
    ((st.evaluate_and_persist_tasks agent_id).1).Pairwise taskSortedRel := by
  constructor
  · unfold KnowledgeStore.list_governed_tasks
    have hS := tasks_prefilter_pairwise_ids st hc
    have hsorted := pairwise_sortByLe
      (fun a b => decide (b.effective_priority ≤ a.effective_priority))
      (fun a b => strLe a.task_id b.task_id = true)
      (fun x y : GovernedTask => by
        simpa using le_total y.effective_priority x.effective_priority)
      (fun x y z : GovernedTask => fun hxy hyz => by
        simp only [decide_eq_true_eq] at hxy hyz ⊢
        exact le_trans hyz hxy)
      _ hS
    refine hsorted.imp ?_
    intro a b hab
    obtain ⟨h1, h2⟩ := hab
    simp only [decide_eq_true_eq] at h1 h2
    rcases lt_or_eq_of_le h1 with hlt | heq
    · exact Or.inl hlt
    · exact Or.inr ⟨heq.symm, h2 (le_of_eq heq.symm)⟩
  · rw [evaluate_and_persist_fst]
    unfold TaskGovernor.evaluate_batch
    have hsorted := pairwise_sortByLe_sorted taskOrd taskOrd_total taskOrd_trans
      ((st.list_governed_tasks).map (st.create_task_governor agent_id).evaluate)
    refine hsorted.imp ?_
    intro a b hab
    unfold taskOrd at hab
    by_cases heq : a.effective_priority = b.effective_priority
    · rw [if_pos heq] at hab
      exact Or.inr ⟨heq, hab⟩
    · rw [if_neg heq] at hab
      simp only [decide_eq_true_eq] at hab
      exact Or.inl (lt_of_le_of_ne hab (fun h => heq h.symm))

/-- Oikos store with two canonically keyed tasks tying on effective
priority. -/
def c8Store : KnowledgeStore :=
  { trees := fun i =>
      if i = 1 then
        [("oikos/tasks/b", .taskRec ⟨"b", 1, .hard, 5⟩),
         ("oikos/tasks/a", .taskRec ⟨"a", 1, .easy, 5⟩)]
      else [],
    vault := ⟨none⟩ }

/-- Closed instance of `C8_tasks_sorted` on `c8Store`. -/
theorem C8_tasks_sorted_witness :
    oikosCanonical c8Store ∧
    ((c8Store.list_governed_tasks).Pairwise taskSortedRel ∧
     ((c8Store.evaluate_and_persist_tasks "agent").1).Pairwise taskSortedRel) :=
  ⟨by unfold oikosCanonical; decide,
   C8_tasks_sorted c8Store "agent" (by unfold oikosCanonical; decide)⟩
